import Mathlib

/-!
Verification development for the CreditSmart front-end repository.

The TypeScript sources are shallowly embedded in Lean 4:
JavaScript numbers are modelled as exact rationals, JavaScript objects as
structures with optional fields, the web-storage stores as association
lists, and the external browser primitives (fetch, crypto.subtle.digest,
Date, setItem failures) as explicit parameters of the embedded functions.
-/

set_option linter.unusedVariables false

/-! ## Currency utility (src/utils/currency.ts) -/

/-- The currency enumeration of src/utils/currency.ts. -/
inductive Currency where
  | USD
  | INR
  | EUR
  | GBP
deriving DecidableEq

/-- The hardcoded conversion rate from USD declared in CURRENCY_CONFIGS
(USD 1.0, INR 83.0, EUR 0.92, GBP 0.79). -/
def currencyRate : Currency → ℚ
  | Currency.USD => 1
  | Currency.INR => 83
  | Currency.EUR => 92 / 100
  | Currency.GBP => 79 / 100

/-- convertFromUSD from src/utils/currency.ts.  The JavaScript guard
(!amountUSD OR isNaN(amountUSD)) returns 0; over exact rationals the
falsy numeric values reduce to 0.  The CURRENCY_CONFIGS lookup always
succeeds because Currency is the full enumeration. -/
def convertFromUSD (amountUSD : ℚ) (targetCurrency : Currency) : ℚ :=
  if amountUSD = 0 then 0
  else amountUSD * currencyRate targetCurrency

/-- convertToUSD from src/utils/currency.ts, with the same falsy guard. -/
def convertToUSD (amount : ℚ) (sourceCurrency : Currency) : ℚ :=
  if amount = 0 then 0
  else amount / currencyRate sourceCurrency

/-! ## Console form submission (Dashboard.handleAnalyze / RiskEnginePage.handleAnalyze) -/

/-- The prediction request payload assembled by the console form
(PredictionInput in src/lib/predictionAdapter.ts, the five fields the
form supplies). -/
structure PredictionInput where
  annualIncome : ℚ
  monthlyDebt : ℚ
  creditScore : ℚ
  loanAmount : ℚ
  employmentYears : ℚ
deriving DecidableEq

/-- handleAnalyze of Dashboard.tsx and RiskEnginePage.tsx (both have the
same validation and conversion logic).  The arguments are the results of
sanitizeNumberInput on the five form fields (none = unparsable input);
the function returns the PredictionInput passed to runPrediction, or
none when a validation check fails and the function returns early. -/
def handleAnalyze (annualIncomeNum monthlyDebtNum creditScoreNum loanAmountNum
    employmentYearsNum : Option ℚ) (currency : Currency) : Option PredictionInput :=
  match annualIncomeNum, monthlyDebtNum, creditScoreNum, loanAmountNum, employmentYearsNum with
  | some inc, some debt, some credit, some loan, some years =>
      if inc ≤ 0 then none
      else if debt < 0 then none
      else if credit < 300 ∨ credit > 850 then none
      else if loan ≤ 0 then none
      else if years < 0 then none
      else some
        { annualIncome := convertToUSD inc currency
          monthlyDebt := convertToUSD debt currency
          creditScore := credit
          loanAmount := convertToUSD loan currency
          employmentYears := years }
  | _, _, _, _, _ => none

/-! ## Mock prediction (src/lib/mockPrediction.ts) -/

/-- RiskFeature from src/lib/mockPrediction.ts.  The impact field is the
string union "positive" | "negative", kept as a string as in TypeScript. -/
structure RiskFeature where
  name : String
  impact : String
  reason : String
deriving DecidableEq

/-- MLPrediction from src/lib/mockPrediction.ts.  risk_band and
confidence are the string union "low" | "medium" | "high". -/
structure MLPrediction where
  risk_score : ℚ
  risk_band : String
  confidence : String
  top_features : List RiskFeature
  recommendation : String
deriving DecidableEq

/-- Math.round: round half towards positive infinity, as JavaScript does. -/
def jsRound (q : ℚ) : ℤ := ⌊q + 1 / 2⌋

/-- The neutral Employment Stability padding feature pushed by
generateMockPrediction. -/
def employmentStabilityFeature : RiskFeature :=
  { name := "Employment Stability"
    impact := "positive"
    reason := "Stable employment history supports consistent income" }

/-- The neutral Loan Amount padding feature pushed by
generateMockPrediction. -/
def loanAmountFeature : RiskFeature :=
  { name := "Loan Amount"
    impact := "positive"
    reason := "Requested amount is within reasonable limits for profile" }

/-- One iteration of the feature padding loop body in
generateMockPrediction: push Employment Stability if it is absent, else
push Loan Amount if it is absent, else break (returned as none). -/
def padStep (fs : List RiskFeature) : Option (List RiskFeature) :=
  if (fs.find? (fun f => f.name = "Employment Stability")).isNone then
    some (fs ++ [employmentStabilityFeature])
  else if (fs.find? (fun f => f.name = "Loan Amount")).isNone then
    some (fs ++ [loanAmountFeature])
  else none

/-- The feature padding loop of generateMockPrediction:
while (topFeatures.length < 3) run the body; the fuel argument bounds
the iterations (the loop body can add at most two features before it
breaks, so any fuel of at least 3 is exact). -/
def padFeatures : ℕ → List RiskFeature → List RiskFeature
  | 0, fs => fs
  | fuel + 1, fs =>
      if fs.length < 3 then
        match padStep fs with
        | some fs2 => padFeatures fuel fs2
        | none => fs
      else fs

/-- generateMockPrediction from src/lib/mockPrediction.ts, translated
statement by statement over exact rationals.  (JavaScript division of a
nonzero numerator by annualIncome = 0 yields an infinity; in this
rational embedding it yields 0, which only matters at annualIncome = 0.) -/
def generateMockPrediction (creditScore annualIncome monthlyDebt : ℚ) : MLPrediction :=
  let debtToIncome := (monthlyDebt * 12) / annualIncome
  let riskScore0 : ℚ := 50
  let riskScore1 :=
    if creditScore < 600 then riskScore0 + 30
    else if creditScore < 700 then riskScore0 + 15
    else if creditScore > 750 then riskScore0 - 20
    else riskScore0
  let riskScore2 :=
    if debtToIncome > 2 / 5 then riskScore1 + 20
    else if debtToIncome < 1 / 5 then riskScore1 - 15
    else riskScore1
  let riskScore3 :=
    if annualIncome > 100000 then riskScore2 - 10
    else if annualIncome < 40000 then riskScore2 + 15
    else riskScore2
  let riskScore := max 0 (min 100 riskScore3)
  let riskBand :=
    if riskScore < 30 then "low"
    else if riskScore < 60 then "medium"
    else "high"
  let confidence :=
    if creditScore = 0 ∨ annualIncome = 0 then "low"
    else if creditScore < 600 ∨ debtToIncome > 1 / 2 then "medium"
    else "high"
  let creditFeatures : List RiskFeature :=
    if creditScore ≥ 750 then
      [{ name := "Credit Score", impact := "positive"
         reason := "Strong credit history demonstrates reliable repayment behavior" }]
    else if creditScore < 650 then
      [{ name := "Credit Score", impact := "negative"
         reason := "Credit history indicates elevated repayment risk" }]
    else []
  let debtFeatures : List RiskFeature :=
    if debtToIncome > 35 / 100 then
      [{ name := "Debt-to-Income Ratio", impact := "negative"
         reason := "High existing debt obligations may strain repayment capacity" }]
    else if debtToIncome < 1 / 5 then
      [{ name := "Debt-to-Income Ratio", impact := "positive"
         reason := "Low existing debt provides strong repayment capacity" }]
    else []
  let incomeFeatures : List RiskFeature :=
    if annualIncome > 90000 then
      [{ name := "Annual Income", impact := "positive"
         reason := "High income supports loan repayment capability" }]
    else if annualIncome < 50000 then
      [{ name := "Annual Income", impact := "negative"
         reason := "Income level may limit repayment flexibility" }]
    else []
  let topFeatures := padFeatures 4 (creditFeatures ++ debtFeatures ++ incomeFeatures)
  let recommendation :=
    if riskBand = "low" ∧ confidence = "high" then "Approve with standard terms"
    else if riskBand = "low" ∧ confidence = "medium" then
      "Approve with standard terms, monitor closely"
    else if riskBand = "medium" ∧ confidence = "high" then "Manual review recommended"
    else if riskBand = "high" then "Decline or request additional verification"
    else "Manual review recommended"
  { risk_score := (jsRound riskScore : ℚ)
    risk_band := riskBand
    confidence := confidence
    top_features := topFeatures.take 3
    recommendation := recommendation }

/-! ## Prediction adapter (src/lib/predictionAdapter.ts)

JSON values arriving from the backend are modelled structurally: every
field either format reads is an optional field of BackendResponse (none
means absent or of the wrong type); string coercions String(v) of
non-string values are modelled by the resulting string. -/

/-- A JavaScript falsy-or default on an optional string field:
(v OR dflt) where undefined and the empty string are falsy. -/
def jsOr (v : Option String) (dflt : String) : String :=
  match v with
  | some s => if s = "" then dflt else s
  | none => dflt

/-- An entry value of data.key_factors in the UX-safe format.  The
adapter only looks at entries whose value is a non-null object
(modelled as some); value and risk_contribution are kept as the string
renderings used in the interpolated reason text. -/
structure KeyFactorObj where
  impact : Option String
  value : String
  risk_contribution : String
deriving DecidableEq

/-- The data object of UXSafePredictionResponse. -/
structure UXData where
  risk_score : Option ℚ
  risk_level : Option String
  recommended_action : Option String
  confidence_level : Option String
  explanation : Option String
  key_factors : Option (List (String × Option KeyFactorObj))
deriving DecidableEq

/-- A top_features entry of the legacy BackendPredictionResponse, all
fields optional. -/
structure BackendFeature where
  name : Option String
  impact : Option String
  reason : Option String
deriving DecidableEq

/-- A backend response body, covering the UX-safe format, the legacy
format and malformed responses: a field is none when it is absent or
not of the type the adapter tests for. -/
structure BackendResponse where
  status : Option String
  error : Option String
  data : Option UXData
  risk_score : Option ℚ
  risk_band : Option String
  confidence : Option String
  top_features : Option (List BackendFeature)
  recommendation : Option String
deriving DecidableEq

/-- normalizeRiskBand from src/lib/predictionAdapter.ts. -/
def normalizeRiskBand (value : String) : String :=
  let normalized := value.toLower
  if normalized = "low" ∨ normalized = "medium" ∨ normalized = "high" then normalized
  else "medium"

/-- normalizeConfidence from src/lib/predictionAdapter.ts. -/
def normalizeConfidence (value : String) : String :=
  let normalized := value.toLower
  if normalized = "low" ∨ normalized = "medium" ∨ normalized = "high" then normalized
  else "medium"

/-- normalizeImpact from src/lib/predictionAdapter.ts; the argument is
the raw optional impact field, String(undefined) being "undefined". -/
def normalizeImpact (value : Option String) : String :=
  let normalized := (value.getD "undefined").toLower
  if normalized = "positive" ∨ normalized = "negative" then normalized
  else "positive"

/-- normalizeFeature from src/lib/predictionAdapter.ts. -/
def normalizeFeature (feature : BackendFeature) : RiskFeature :=
  { name := jsOr feature.name "Unknown Factor"
    impact := normalizeImpact feature.impact
    reason := jsOr feature.reason "Impact analysis unavailable" }

/-- The regex word-character class backslash-w of JavaScript:
ASCII letters, digits and underscore. -/
def isWordChar (c : Char) : Bool := c.isAlphanum || c = '_'

/-- The second replace of the key-factor name transformation:
uppercase every word character that starts a word (preceded by a
non-word character or the start of the string). -/
def capWordStarts : List Char → Bool → List Char
  | [], _ => []
  | c :: rest, prevIsWord =>
      (if isWordChar c && !prevIsWord then c.toUpper else c) :: capWordStarts rest (isWordChar c)

/-- name.replace(underscores to spaces).replace(word starts to upper)
applied to key_factors entry names in the UX-safe branch. -/
def formatFactorName (name : String) : String :=
  let spaced := name.data.map (fun c => if c = '_' then ' ' else c)
  String.mk (capWordStarts spaced false)

/-- The default feature pushed by both padding loops of
normalizePrediction. -/
def additionalFactorFeature : RiskFeature :=
  { name := "Additional Factor"
    impact := "positive"
    reason := "Supplementary risk assessment factor" }

/-- The padding loop of normalizePrediction: push the default feature
while fewer than 3 features are present (this loop has no break). -/
def padWithDefault (features : List RiskFeature) : List RiskFeature :=
  features ++ List.replicate (3 - features.length) additionalFactorFeature

/-- The branch test of normalizePrediction: the response is treated as
the new UX-safe format when a status field is present and equals
"success" and a (truthy) data object is present. -/
def usesNewFormat (response : BackendResponse) : Bool :=
  response.status = some "success" && response.data.isSome

/-- The UX-safe branch of normalizePrediction. -/
def normalizeUXSafe (data : UXData) : MLPrediction :=
  let riskScore := jsRound ((data.risk_score.getD 0) * 100)
  let riskBand := normalizeRiskBand (jsOr data.risk_level "MEDIUM")
  let confidence := normalizeConfidence (jsOr data.confidence_level "MEDIUM")
  let factorEntries := (data.key_factors.getD []).take 3
  let features := factorEntries.filterMap (fun nv =>
    match nv.2 with
    | some factorData =>
        some { name := formatFactorName nv.1
               impact := if factorData.impact = some "negative" then "negative" else "positive"
               reason := "Value: " ++ factorData.value ++ ", Risk contribution: " ++
                 factorData.risk_contribution ++ "%" }
    | none => none)
  { risk_score := (riskScore : ℚ)
    risk_band := riskBand
    confidence := confidence
    top_features := padWithDefault features
    recommendation :=
      jsOr data.explanation (jsOr data.recommended_action "Manual review recommended") }

/-- The legacy-format fallback branch of normalizePrediction. -/
def normalizeLegacy (response : BackendResponse) : MLPrediction :=
  let riskScore0 := response.risk_score.getD 50
  let riskScore := max 0 (min 100 riskScore0)
  let riskBand := normalizeRiskBand (jsOr response.risk_band "medium")
  let confidence := normalizeConfidence (jsOr response.confidence "medium")
  let features :=
    match response.top_features with
    | some arr => (arr.take 3).map normalizeFeature
    | none => []
  { risk_score := riskScore
    risk_band := riskBand
    confidence := confidence
    top_features := padWithDefault features
    recommendation := jsOr response.recommendation "Manual review recommended" }

/-- normalizePrediction from src/lib/predictionAdapter.ts. -/
def normalizePrediction (response : BackendResponse) : MLPrediction :=
  if usesNewFormat response then
    match response.data with
    | some data => normalizeUXSafe data
    | none => normalizeLegacy response
  else normalizeLegacy response

/-! ## fetchPrediction and the usePrediction hook -/

/-- A resolved HTTP response of the fetch call in fetchPrediction:
status code, statusText and the parsed JSON body. -/
structure HttpReply where
  status : ℕ
  statusText : String
  body : BackendResponse
deriving DecidableEq

/-- fetchPrediction from src/lib/predictionAdapter.ts.  The network is
a parameter: Except.error e models the fetch promise rejecting with an
Error whose message is e (rethrown by the catch block with its message
preserved), Except.ok models a resolved response.  The result is the
normalized prediction or the thrown error message. -/
def fetchPrediction (reply : Except String HttpReply) : Except String MLPrediction :=
  match reply with
  | Except.error e => Except.error e
  | Except.ok r =>
      if ¬(200 ≤ r.status ∧ r.status ≤ 299) then
        if r.status = 422 then
          Except.error "Invalid input data. Please check all fields and try again."
        else if r.status = 504 then
          Except.error "Prediction timeout. Please try again with different inputs."
        else if r.status ≥ 500 then
          Except.error "Server error. Please try again later."
        else
          Except.error ("Prediction failed: " ++ toString r.status ++ " " ++ r.statusText)
      else if r.body.status = some "error" then
        Except.error (jsOr r.body.error "Unknown backend error")
      else
        Except.ok (normalizePrediction r.body)

/-- PredictionState of src/hooks/usePrediction.ts. -/
structure PredictionState where
  prediction : Option MLPrediction
  loading : Bool
  error : Option String
  analyzed : Bool
deriving DecidableEq

/-- The prediction attempt inside runPrediction: the mock path computes
generateMockPrediction locally, the live path awaits fetchPrediction
(whose network behaviour is the reply parameter). -/
def predictionAttempt (useMock : Bool) (input : PredictionInput)
    (reply : Except String HttpReply) : Except String MLPrediction :=
  if useMock then
    Except.ok (generateMockPrediction input.creditScore input.annualIncome input.monthlyDebt)
  else fetchPrediction reply

/-- runPrediction of src/hooks/usePrediction.ts: the state stored by
the final setState call, as a function of the previous state (the
intermediate loading state is overwritten unconditionally by both the
success and the catch branch). -/
def runPrediction (useMock : Bool) (input : PredictionInput)
    (reply : Except String HttpReply) (prev : PredictionState) : PredictionState :=
  match predictionAttempt useMock input reply with
  | Except.ok prediction =>
      { prediction := some prediction, loading := false, error := none, analyzed := true }
  | Except.error _ =>
      { prediction := none, loading := false
        error := some "Prediction temporarily unavailable", analyzed := false }

/-! ## creditRiskApi.getRiskScore (lib/api.ts) -/

/-- The data object of the placeholder response resolved by
creditRiskApi.getRiskScore. -/
structure RiskScoreData where
  score : ℚ
  probability_of_default : ℚ
  timestamp : String
  status : String
deriving DecidableEq

/-- creditRiskApi.getRiskScore from lib/api.ts: the API call is
commented out; the placeholder resolves a hardcoded response after a
timeout.  The input dictionary is modelled as key-value pairs and the
Date timestamp as a parameter; neither influences the score. -/
def getRiskScore (timestamp : String) (input : List (String × String)) : RiskScoreData :=
  { score := 750
    probability_of_default := 5 / 100
    timestamp := timestamp
    status := "success" }

/-! ## geminiService.analyzeRisk (services/geminiService.ts)

The older Dashboard component calls analyzeRisk, which either resolves
a hardcoded local assessment (when no API key is configured) or asks
the Google Gemini API.  The GoogleGenAI generateContent call (whose
prompt is built from the profile) and JSON.parse are external
primitives, modelled as the gemini and parseJson parameters. -/

/-- FinancialProfile from types.ts. -/
structure FinancialProfile where
  annualIncome : ℚ
  monthlyDebt : ℚ
  creditScore : ℚ
  loanAmount : ℚ
  employmentYears : ℚ
deriving DecidableEq

/-- RiskAnalysis from types.ts.  riskLevel is the string union
"Low" | "Medium" | "High" | "Critical". -/
structure RiskAnalysis where
  score : ℚ
  riskLevel : String
  summary : String
  factors : List String
  recommendation : String
deriving DecidableEq

/-- The hardcoded fallback assessment resolved by analyzeRisk when no
API key is present. -/
def geminiFallbackAnalysis : RiskAnalysis :=
  { score := 785
    riskLevel := "Low"
    summary := "Based on the provided financial profile, the applicant demonstrates strong repayment capacity. The debt-to-income ratio is healthy, and the credit score indicates a history of responsible credit usage."
    factors := ["High credit score (700+)", "Low debt-to-income ratio",
      "Stable employment history"]
    recommendation := "Approve loan with competitive interest rate." }

/-- analyzeRisk from services/geminiService.ts.  processEnvApiKey is
process.env.API_KEY (none = undefined, and the empty string is also
falsy); gemini is the outcome of the generateContent promise, resolving
to response.text (none = undefined); parseJson models JSON.parse on
that text (its error is rethrown by the catch block). -/
def analyzeRisk (processEnvApiKey : Option String)
    (gemini : Except String (Option String))
    (parseJson : String → Except String RiskAnalysis)
    (profile : FinancialProfile) : Except String RiskAnalysis :=
  if processEnvApiKey = none ∨ processEnvApiKey = some "" then
    Except.ok geminiFallbackAnalysis
  else
    match gemini with
    | Except.error e => Except.error e
    | Except.ok none => Except.error "No response from AI"
    | Except.ok (some text) =>
        if text = "" then Except.error "No response from AI"
        else parseJson text

/-! ## Local auth service (src/services/authService.ts)

crypto.subtle.digest('SHA-256', bytes) is a browser primitive outside
this repository; it is modelled as an explicit digest parameter from
byte sequences to byte sequences.  The TextEncoder UTF-8 encoding is
modelled by String.toUTF8.  Failures of the fallible browser calls
(crypto.subtle rejecting, localStorage.setItem throwing on a full
store) are modelled by the boolean parameters hashOk and saveOk. -/

/-- The UTF-8 encoding of a string as a byte sequence (TextEncoder). -/
def utf8Bytes (s : String) : List ℕ :=
  s.toUTF8.toList.map UInt8.toNat

/-- The lowercase hexadecimal digit character for a value below 16,
as in Number.toString(16). -/
def hexDigitChar (n : ℕ) : Char :=
  if n < 10 then Char.ofNat (48 + n) else Char.ofNat (87 + n)

/-- Number.toString(16) on a natural number: lowercase hexadecimal
digits, most significant first. -/
def toString16 (n : ℕ) : List Char :=
  if h : n < 16 then [hexDigitChar n]
  else toString16 (n / 16) ++ [hexDigitChar (n % 16)]
decreasing_by exact Nat.div_lt_self (by omega) (by omega)

/-- b.toString(16).padStart(2, '0') for one byte of the digest. -/
def byteToHex (b : ℕ) : String :=
  String.mk (List.replicate (2 - (toString16 b).length) '0' ++ toString16 b)

/-- The hex rendering of hashPassword: map every byte to two lowercase
hex digits and join the pieces in order. -/
def bytesToHex : List ℕ → String
  | [] => ""
  | b :: rest => byteToHex b ++ bytesToHex rest

/-- hashPassword from src/services/authService.ts: the lowercase hex
string of the digest of the UTF-8 encoding of the password.  digest is
the external SHA-256 primitive. -/
def hashPassword (digest : List ℕ → List ℕ) (password : String) : String :=
  bytesToHex (digest (utf8Bytes password))

/-- ToInt32 of an exact integer: the signed 32-bit value selected by
the JavaScript bitwise operations. -/
def toInt32 (n : ℤ) : ℤ :=
  let r := n % (2 ^ 32)
  if r ≥ 2 ^ 31 then r - 2 ^ 32 else r

/-- One loop iteration of generateUserId:
hash = ((hash << 5) - hash) + charCode; hash = hash & hash. -/
def hashStep (hash : ℤ) (code : ℕ) : ℤ :=
  toInt32 (toInt32 (hash * 32) - hash + code)

/-- A base-36 digit character as produced by Number.toString(36). -/
def digitChar36 (n : ℕ) : Char :=
  if n < 10 then Char.ofNat (48 + n) else Char.ofNat (97 + (n - 10))

/-- The base-36 rendering Math.abs(hash).toString(36). -/
def base36Digits (n : ℕ) : List Char :=
  if h : n < 36 then [digitChar36 n]
  else base36Digits (n / 36) ++ [digitChar36 (n % 36)]
decreasing_by exact Nat.div_lt_self (by omega) (by omega)

/-- generateUserId from src/services/authService.ts.  Character codes
are taken as Unicode code points (charCodeAt agrees on the basic
multilingual plane). -/
def generateUserId (email : String) : String :=
  let hash := email.data.foldl (fun h c => hashStep h c.toNat) 0
  "user_" ++ String.mk (base36Digits hash.natAbs)

/-- StoredUser from src/services/authService.ts. -/
structure StoredUser where
  email : String
  name : String
  passwordHash : String
  createdAt : String
  currency : Option String
deriving DecidableEq

/-- Session from src/services/authService.ts. -/
structure Session where
  userId : String
  email : String
  name : String
  currency : String
  createdAt : String
  rememberMe : Bool
deriving DecidableEq

/-- The users database object: email key to StoredUser, in insertion
order as a JavaScript object. -/
abbrev UsersDatabase := List (String × StoredUser)

/-- database[key] lookup. -/
def dbLookup (db : UsersDatabase) (key : String) : Option StoredUser :=
  (List.find? (fun p => p.1 = key) db).map (fun p => p.2)

/-- database[key] = user assignment: overwrite an existing key,
otherwise append. -/
def dbInsert (db : UsersDatabase) (key : String) (user : StoredUser) : UsersDatabase :=
  if (List.find? (fun p => p.1 = key) db).isSome then
    List.map (fun p => if p.1 = key then (key, user) else p) db
  else db ++ [(key, user)]

/-- A value stored in a web-storage slot: the parsed users database,
a parsed session, or content not written by this application. -/
inductive StoreValue where
  | users (db : UsersDatabase)
  | session (s : Session)
  | other (raw : String)
deriving DecidableEq

/-- One web storage area (localStorage or sessionStorage) as an
association list from keys to stored values. -/
abbrev Store := List (String × StoreValue)

/-- getItem. -/
def storeGet (st : Store) (key : String) : Option StoreValue :=
  (List.find? (fun p => p.1 = key) st).map (fun p => p.2)

/-- setItem: overwrite an existing key, otherwise append. -/
def storeSet (st : Store) (key : String) (v : StoreValue) : Store :=
  if (List.find? (fun p => p.1 = key) st).isSome then
    List.map (fun p => if p.1 = key then (key, v) else p) st
  else st ++ [(key, v)]

/-- removeItem. -/
def storeRemove (st : Store) (key : String) : Store :=
  List.filter (fun p => ¬p.1 = key) st

/-- The two browser storage areas the auth service uses. -/
structure Browser where
  localStorage : Store
  sessionStorage : Store
deriving DecidableEq

/-- USERS_STORAGE_KEY from src/services/authService.ts. -/
def USERS_STORAGE_KEY : String := "creditsmart_users"

/-- SESSION_STORAGE_KEY from src/services/authService.ts. -/
def SESSION_STORAGE_KEY : String := "creditsmart_session"

/-- loadUsersDatabase: parse the stored users JSON, empty database when
the key is absent or its content does not parse as a users database. -/
def loadUsersDatabase (b : Browser) : UsersDatabase :=
  match storeGet b.localStorage USERS_STORAGE_KEY with
  | some (StoreValue.users db) => db
  | _ => []

/-- saveUsersDatabase: serialize the database under USERS_STORAGE_KEY. -/
def saveUsersDatabase (b : Browser) (db : UsersDatabase) : Browser :=
  { b with localStorage := storeSet b.localStorage USERS_STORAGE_KEY (StoreValue.users db) }

/-- The result record of signUp. -/
structure AuthResult where
  success : Bool
  error : Option String
deriving DecidableEq

/-- signUp from src/services/authService.ts.  createdAt stands for the
external new Date().toISOString(); hashOk = false models hashPassword
throwing (crypto failure), saveOk = false models saveUsersDatabase
throwing (localStorage.setItem failure) - in that case nothing was
persisted, so the browser state is unchanged. -/
def signUp (digest : List ℕ → List ℕ) (hashOk saveOk : Bool) (createdAt : String)
    (name email password : String) (b : Browser) : AuthResult × Browser :=
  if name.trim.length = 0 then
    ({ success := false, error := some "Name is required" }, b)
  else if ¬email.contains '@' then
    ({ success := false, error := some "Valid email is required" }, b)
  else if password.length < 6 then
    ({ success := false, error := some "Password must be at least 6 characters" }, b)
  else
    let database := loadUsersDatabase b
    let normalizedEmail := email.toLower.trim
    if (dbLookup database normalizedEmail).isSome then
      ({ success := false, error := some "User already exists. Please sign in." }, b)
    else if ¬hashOk then
      ({ success := false, error := some "Registration failed. Please try again." }, b)
    else
      let passwordHash := hashPassword digest password
      let newUser : StoredUser :=
        { email := normalizedEmail
          name := name.trim
          passwordHash := passwordHash
          createdAt := createdAt
          currency := some "USD" }
      if ¬saveOk then
        ({ success := false, error := some "Registration failed. Please try again." }, b)
      else
        ({ success := true, error := none },
          saveUsersDatabase b (dbInsert database normalizedEmail newUser))

/-- The result record of signIn. -/
structure SignInResult where
  success : Bool
  user : Option Session
  error : Option String
deriving DecidableEq

/-- signIn from src/services/authService.ts.  createdAt stands for the
external new Date().toISOString(); hashOk = false models hashPassword
throwing inside the try block. -/
def signIn (digest : List ℕ → List ℕ) (hashOk : Bool) (createdAt : String)
    (email password : String) (rememberMe : Bool) (b : Browser) : SignInResult × Browser :=
  if email = "" ∨ password = "" then
    ({ success := false, user := none, error := some "Email and password are required" }, b)
  else
    let normalizedEmail := email.toLower.trim
    let database := loadUsersDatabase b
    match dbLookup database normalizedEmail with
    | none => ({ success := false, user := none, error := some "User not found" }, b)
    | some storedUser =>
        if ¬hashOk then
          ({ success := false, user := none
             error := some "Authentication failed. Please try again." }, b)
        else
          let inputHash := hashPassword digest password
          if inputHash ≠ storedUser.passwordHash then
            ({ success := false, user := none, error := some "Invalid password" }, b)
          else
            let session : Session :=
              { userId := generateUserId normalizedEmail
                email := storedUser.email
                name := storedUser.name
                currency := jsOr storedUser.currency "USD"
                createdAt := createdAt
                rememberMe := rememberMe }
            if rememberMe then
              ({ success := true, user := some session, error := none },
                { b with localStorage :=
                    storeSet b.localStorage SESSION_STORAGE_KEY (StoreValue.session session) })
            else
              ({ success := true, user := some session, error := none },
                { b with sessionStorage :=
                    storeSet b.sessionStorage SESSION_STORAGE_KEY (StoreValue.session session) })

/-- signOut from src/services/authService.ts: remove the session entry
from both storage areas. -/
def signOut (b : Browser) : Browser :=
  { localStorage := storeRemove b.localStorage SESSION_STORAGE_KEY
    sessionStorage := storeRemove b.sessionStorage SESSION_STORAGE_KEY }

/-! ## Currency lemmas -/

theorem currencyRate_pos (c : Currency) : 0 < currencyRate c := by
  cases c <;> norm_num [currencyRate]

theorem currencyRate_ne_zero (c : Currency) : currencyRate c ≠ 0 :=
  ne_of_gt (currencyRate_pos c)

theorem convertToUSD_eq_div (a : ℚ) (c : Currency) :
    convertToUSD a c = a / currencyRate c := by
  unfold convertToUSD
  split
  · simp [*]
  · rfl

/-! ## Helper lemmas for the adapter claims -/

theorem normalizeRiskBand_mem (s : String) :
    normalizeRiskBand s = "low" ∨ normalizeRiskBand s = "medium" ∨
      normalizeRiskBand s = "high" := by
  unfold normalizeRiskBand
  dsimp only
  by_cases h : s.toLower = "low" ∨ s.toLower = "medium" ∨ s.toLower = "high"
  · rw [if_pos h]; exact h
  · rw [if_neg h]; right; left; rfl

theorem normalizeConfidence_mem (s : String) :
    normalizeConfidence s = "low" ∨ normalizeConfidence s = "medium" ∨
      normalizeConfidence s = "high" := by
  unfold normalizeConfidence
  dsimp only
  by_cases h : s.toLower = "low" ∨ s.toLower = "medium" ∨ s.toLower = "high"
  · rw [if_pos h]; exact h
  · rw [if_neg h]; right; left; rfl

theorem padWithDefault_length (fs : List RiskFeature) (h : fs.length ≤ 3) :
    (padWithDefault fs).length = 3 := by
  unfold padWithDefault
  simp only [List.length_append, List.length_replicate]
  omega

theorem jsRound_unit_bounds (x : ℚ) (h0 : 0 ≤ x) (h1 : x ≤ 1) :
    0 ≤ jsRound (x * 100) ∧ jsRound (x * 100) ≤ 100 := by
  unfold jsRound
  constructor
  · exact Int.floor_nonneg.mpr (by linarith)
  · have hlt : ⌊x * 100 + 1 / 2⌋ < (101 : ℤ) := Int.floor_lt.mpr (by push_cast; linarith)
    omega

theorem normalizeLegacy_risk_score_bounds (response : BackendResponse) :
    0 ≤ (normalizeLegacy response).risk_score ∧
      (normalizeLegacy response).risk_score ≤ 100 := by
  unfold normalizeLegacy
  dsimp only
  exact ⟨le_max_left 0 _, max_le (by norm_num) (min_le_left 100 _)⟩

/-! ## Claim C4: currency round-trip -/

/-- Claim C4: for every rational amount a and currency c,
convertToUSD (convertFromUSD a c) c = a under exact rational arithmetic
with the CURRENCY_CONFIGS rates. -/
theorem currency_roundtrip (a : ℚ) (c : Currency) :
    convertToUSD (convertFromUSD a c) c = a := by
  unfold convertFromUSD convertToUSD
  by_cases h : a = 0
  · simp [h]
  · have hr : currencyRate c ≠ 0 := currencyRate_ne_zero c
    rw [if_neg h, if_neg (mul_ne_zero h hr)]
    exact mul_div_cancel_right₀ a hr

/-! ## Claim C5: validated form submissions convert amounts to USD -/

/-- Claim C5: whenever the console form passes validation under display
currency c, the prediction request holds annualIncome, monthlyDebt and
loanAmount divided by the configured rate of c, and creditScore and
employmentYears unchanged. -/
theorem form_submission_converts_to_usd
    (inc debt credit loan years : ℚ) (c : Currency) (req : PredictionInput)
    (h : handleAnalyze (some inc) (some debt) (some credit) (some loan) (some years) c =
      some req) :
    req.annualIncome = inc / currencyRate c ∧
    req.monthlyDebt = debt / currencyRate c ∧
    req.loanAmount = loan / currencyRate c ∧
    req.creditScore = credit ∧
    req.employmentYears = years := by
  unfold handleAnalyze at h
  dsimp only at h
  split_ifs at h
  cases h
  refine ⟨?_, ?_, ?_, rfl, rfl⟩ <;> simp [convertToUSD_eq_div]

/-- Concrete instance of claim C5: the default INR form values. -/
theorem form_submission_converts_to_usd_witness :
    ((⟨85000 / 83, 1200 / 83, 720, 25000 / 83, 5⟩ : PredictionInput).annualIncome =
        85000 / currencyRate Currency.INR) ∧
    ((⟨85000 / 83, 1200 / 83, 720, 25000 / 83, 5⟩ : PredictionInput).monthlyDebt =
        1200 / currencyRate Currency.INR) ∧
    ((⟨85000 / 83, 1200 / 83, 720, 25000 / 83, 5⟩ : PredictionInput).loanAmount =
        25000 / currencyRate Currency.INR) ∧
    ((⟨85000 / 83, 1200 / 83, 720, 25000 / 83, 5⟩ : PredictionInput).creditScore = 720) ∧
    ((⟨85000 / 83, 1200 / 83, 720, 25000 / 83, 5⟩ : PredictionInput).employmentYears = 5) :=
  form_submission_converts_to_usd 85000 1200 720 25000 5 Currency.INR
    ⟨85000 / 83, 1200 / 83, 720, 25000 / 83, 5⟩
    (by norm_num [handleAnalyze, convertToUSD, currencyRate])

/-! ## Claim C7: runPrediction success and failure states -/

/-- Claim C7: if the prediction attempt inside runPrediction throws,
the resulting state is exactly prediction = none, loading = false,
analyzed = false, error = "Prediction temporarily unavailable",
regardless of the previously held prediction; on success the state is
the new prediction with loading = false, error = none, analyzed = true. -/
theorem runPrediction_state (useMock : Bool) (input : PredictionInput)
    (reply : Except String HttpReply) (prev : PredictionState) :
    (∀ e, predictionAttempt useMock input reply = Except.error e →
        runPrediction useMock input reply prev =
          { prediction := none, loading := false
            error := some "Prediction temporarily unavailable", analyzed := false }) ∧
    (∀ p, predictionAttempt useMock input reply = Except.ok p →
        runPrediction useMock input reply prev =
          { prediction := some p, loading := false, error := none, analyzed := true }) := by
  constructor <;> intro x hx <;> simp [runPrediction, hx]

/-- Concrete instance of claim C7: a mock prediction succeeds even
while the network is down, and the state discards a previous error. -/
theorem runPrediction_state_witness :
    runPrediction true ⟨85000, 1200, 720, 25000, 5⟩ (Except.error "network down")
        ⟨none, false, some "old", false⟩ =
      { prediction := some (generateMockPrediction 720 85000 1200), loading := false
        error := none, analyzed := true } :=
  (runPrediction_state true ⟨85000, 1200, 720, 25000, 5⟩ (Except.error "network down")
    ⟨none, false, some "old", false⟩).2 (generateMockPrediction 720 85000 1200) rfl

/-! ## Claim C1: where assessments come from -/

/-- Claim C1, amended: with the mock flag off, every prediction held
in the usePrediction state is the normalization of the body of the
HTTP reply the backend returned; with the mock flag on, runPrediction
ignores the network entirely and returns generateMockPrediction
computed locally; creditRiskApi.getRiskScore resolves the hardcoded
score 750 for every input without consulting any HTTP reply; and
beyond those two admitted mock paths the repository has a third local
path: geminiService.analyzeRisk with no API key configured resolves
the hardcoded assessment with score 785 regardless of the network,
and with an API key every assessment it returns successfully is parsed
from the Google Gemini response text rather than obtained from the
backend service. -/
theorem assessments_from_backend (input : PredictionInput)
    (reply : Except String HttpReply) (prev : PredictionState) :
    (∀ p, (runPrediction false input reply prev).prediction = some p →
        ∃ r, reply = Except.ok r ∧ p = normalizePrediction r.body) ∧
    (∀ reply2, runPrediction true input reply prev = runPrediction true input reply2 prev) ∧
    (runPrediction true input reply prev).prediction =
      some (generateMockPrediction input.creditScore input.annualIncome input.monthlyDebt) ∧
    (∀ timestamp input2, (getRiskScore timestamp input2).score = 750) ∧
    (∀ (gemini : Except String (Option String))
        (parseJson : String → Except String RiskAnalysis) (profile : FinancialProfile),
      analyzeRisk none gemini parseJson profile = Except.ok geminiFallbackAnalysis ∧
        geminiFallbackAnalysis.score = 785) ∧
    (∀ (apiKey : String) (gemini : Except String (Option String))
        (parseJson : String → Except String RiskAnalysis) (profile : FinancialProfile)
        (r : RiskAnalysis),
      ¬apiKey = "" →
      analyzeRisk (some apiKey) gemini parseJson profile = Except.ok r →
      ∃ text, gemini = Except.ok (some text) ∧ ¬text = "" ∧ parseJson text = Except.ok r) := by
  refine ⟨?_, fun reply2 => rfl, rfl, fun timestamp input2 => rfl,
    fun gemini parseJson profile => ⟨rfl, rfl⟩, ?_⟩
  · intro p hp
    simp only [runPrediction, predictionAttempt, Bool.false_eq_true, if_false] at hp
    cases hres : fetchPrediction reply with
    | error e => rw [hres] at hp; simp at hp
    | ok q =>
        rw [hres] at hp
        simp only [Option.some.injEq] at hp
        cases reply with
        | error e => simp [fetchPrediction] at hres
        | ok r =>
            refine ⟨r, rfl, ?_⟩
            unfold fetchPrediction at hres
            dsimp only at hres
            split_ifs at hres <;> simp_all
  · intro apiKey gemini parseJson profile r hkey hok
    unfold analyzeRisk at hok
    rw [if_neg (by simp [hkey])] at hok
    cases gemini with
    | error e => cases hok
    | ok t =>
        cases t with
        | none => cases hok
        | some text =>
            dsimp only at hok
            by_cases htext : text = ""
            · rw [if_pos htext] at hok
              cases hok
            · rw [if_neg htext] at hok
              exact ⟨text, rfl, htext, hok⟩

/-- Concrete instance of claim C1: a 200 reply with an empty body is
normalized into the shown prediction, getRiskScore returns 750,
analyzeRisk without a key resolves the local score-785 assessment even
while the network errors, and with a key a successful analyzeRisk
result is the parse of the Gemini response text. -/
theorem assessments_from_backend_witness :
    (∃ r, (Except.ok (⟨200, "OK", ⟨none, none, none, none, none, none, none, none⟩⟩ :
          HttpReply) : Except String HttpReply) = Except.ok r ∧
        normalizePrediction ⟨none, none, none, none, none, none, none, none⟩ =
          normalizePrediction r.body) ∧
    (getRiskScore "2026-01-01T00:00:00Z" [("credit_score", "720")]).score = 750 ∧
    analyzeRisk none (Except.error "network down") (fun _ => Except.error "unused")
        ⟨85000, 1200, 720, 25000, 5⟩ = Except.ok geminiFallbackAnalysis ∧
    (∃ text, (Except.ok (some "gemini json body") : Except String (Option String)) =
        Except.ok (some text) ∧ ¬text = "" ∧
        (fun _ => Except.ok geminiFallbackAnalysis : String → Except String RiskAnalysis)
            text = Except.ok geminiFallbackAnalysis) :=
  ⟨(assessments_from_backend ⟨85000, 1200, 720, 25000, 5⟩
      (Except.ok ⟨200, "OK", ⟨none, none, none, none, none, none, none, none⟩⟩)
      ⟨none, false, none, false⟩).1
      (normalizePrediction ⟨none, none, none, none, none, none, none, none⟩)
      (by with_unfolding_all decide),
    (assessments_from_backend ⟨85000, 1200, 720, 25000, 5⟩
      (Except.ok ⟨200, "OK", ⟨none, none, none, none, none, none, none, none⟩⟩)
      ⟨none, false, none, false⟩).2.2.2.1 "2026-01-01T00:00:00Z" [("credit_score", "720")],
    ((assessments_from_backend ⟨85000, 1200, 720, 25000, 5⟩
      (Except.ok ⟨200, "OK", ⟨none, none, none, none, none, none, none, none⟩⟩)
      ⟨none, false, none, false⟩).2.2.2.2.1 (Except.error "network down")
      (fun _ => Except.error "unused") ⟨85000, 1200, 720, 25000, 5⟩).1,
    (assessments_from_backend ⟨85000, 1200, 720, 25000, 5⟩
      (Except.ok ⟨200, "OK", ⟨none, none, none, none, none, none, none, none⟩⟩)
      ⟨none, false, none, false⟩).2.2.2.2.2 "the-key" (Except.ok (some "gemini json body"))
      (fun _ => Except.ok geminiFallbackAnalysis) ⟨85000, 1200, 720, 25000, 5⟩
      geminiFallbackAnalysis (by decide) (by rfl)⟩

/-- Counterexample to claim C1 as stated: geminiService.analyzeRisk is
an operation of this repository outside the two admitted mock paths,
and with no API key configured it resolves a locally computed risk
assessment with score 785 even though the external call fails, so not
every risk assessment produced by the application is obtained from the
external backend service over HTTP. -/
theorem assessments_from_backend_counterexample :
    analyzeRisk none (Except.error "network unreachable") (fun _ => Except.error "unused")
        ⟨85000, 1200, 720, 25000, 5⟩ = Except.ok geminiFallbackAnalysis ∧
    geminiFallbackAnalysis.score = 785 ∧
    ¬geminiFallbackAnalysis.score = 750 := by
  refine ⟨rfl, rfl, ?_⟩
  with_unfolding_all decide

/-! ## Claim C8: normalizePrediction output shape -/

/-- Claim C8, amended: for every backend response, normalizePrediction
returns a risk_band and confidence in the set of low, medium, high and
exactly 3 top_features; the risk_score lies in the interval from 0 to
100 in the legacy branch unconditionally, and in the new-format branch
whenever the data object carries a risk_score in the unit interval
(that branch computes round(risk_score times 100) without clamping). -/
theorem normalizePrediction_shape (response : BackendResponse) :
    ((normalizePrediction response).risk_band = "low" ∨
      (normalizePrediction response).risk_band = "medium" ∨
      (normalizePrediction response).risk_band = "high") ∧
    ((normalizePrediction response).confidence = "low" ∨
      (normalizePrediction response).confidence = "medium" ∨
      (normalizePrediction response).confidence = "high") ∧
    (normalizePrediction response).top_features.length = 3 ∧
    (usesNewFormat response = false →
      0 ≤ (normalizePrediction response).risk_score ∧
        (normalizePrediction response).risk_score ≤ 100) ∧
    (∀ d, response.data = some d → 0 ≤ d.risk_score.getD 0 → d.risk_score.getD 0 ≤ 1 →
      0 ≤ (normalizePrediction response).risk_score ∧
        (normalizePrediction response).risk_score ≤ 100) := by
  by_cases hnew : usesNewFormat response = true
  · obtain ⟨d, hd⟩ : ∃ d, response.data = some d := by
      rcases hr : response.data with _ | d
      · exfalso
        rw [usesNewFormat, hr] at hnew
        simp at hnew
      · exact ⟨d, rfl⟩
    have heq : normalizePrediction response = normalizeUXSafe d := by
      rw [normalizePrediction, if_pos hnew, hd]
    rw [heq]
    refine ⟨?_, ?_, ?_, ?_, ?_⟩
    · exact normalizeRiskBand_mem _
    · exact normalizeConfidence_mem _
    · apply padWithDefault_length
      calc (((d.key_factors.getD []).take 3).filterMap _).length
          ≤ ((d.key_factors.getD []).take 3).length := List.length_filterMap_le _ _
        _ ≤ 3 := by simp [List.length_take]
    · intro hfalse
      rw [hnew] at hfalse
      cases hfalse
    · intro d2 hd2 h0 h1
      rw [hd] at hd2
      cases hd2
      have := jsRound_unit_bounds (d.risk_score.getD 0) h0 h1
      unfold normalizeUXSafe
      dsimp only
      constructor
      · exact_mod_cast this.1
      · exact_mod_cast this.2
  · have heq : normalizePrediction response = normalizeLegacy response := by
      rw [normalizePrediction, if_neg hnew]
    have hbounds := normalizeLegacy_risk_score_bounds response
    rw [heq]
    refine ⟨?_, ?_, ?_, fun _ => hbounds, fun d2 hd2 h0 h1 => hbounds⟩
    · exact normalizeRiskBand_mem _
    · exact normalizeConfidence_mem _
    · unfold normalizeLegacy
      dsimp only
      apply padWithDefault_length
      rcases response.top_features with _ | arr
      · simp
      · simp [List.length_take]

/-- Concrete instance of claim C8: a reply with no recognizable fields
falls through to the legacy branch and is fully defaulted. -/
theorem normalizePrediction_shape_witness :
    (normalizePrediction ⟨none, none, none, none, none, none, none, none⟩).risk_band = "medium" ∧
    (normalizePrediction ⟨none, none, none, none, none, none, none, none⟩).confidence =
      "medium" ∧
    (normalizePrediction
        ⟨none, none, none, none, none, none, none, none⟩).top_features.length = 3 ∧
    0 ≤ (normalizePrediction ⟨none, none, none, none, none, none, none, none⟩).risk_score ∧
    (normalizePrediction ⟨none, none, none, none, none, none, none, none⟩).risk_score ≤ 100 :=
  have h := normalizePrediction_shape ⟨none, none, none, none, none, none, none, none⟩
  ⟨by with_unfolding_all decide, by with_unfolding_all decide, h.2.2.1,
    (h.2.2.2.1 (by with_unfolding_all decide)).1 , (h.2.2.2.1 (by with_unfolding_all decide)).2⟩

/-- Counterexample to claim C8 as stated: a new-format response whose
data.risk_score is 2 (outside the documented unit interval) is
normalized to risk_score 200, outside the interval from 0 to 100. -/
theorem normalizePrediction_shape_counterexample :
    (normalizePrediction
        { status := some "success"
          error := none
          data := some
            { risk_score := some 2, risk_level := none, recommended_action := none
              confidence_level := none, explanation := none, key_factors := none }
          risk_score := none, risk_band := none, confidence := none
          top_features := none, recommendation := none }).risk_score = 200 ∧
    ¬((normalizePrediction
        { status := some "success"
          error := none
          data := some
            { risk_score := some 2, risk_level := none, recommended_action := none
              confidence_level := none, explanation := none, key_factors := none }
          risk_score := none, risk_band := none, confidence := none
          top_features := none, recommendation := none }).risk_score ≤ 100) := by
  with_unfolding_all decide

/-! ## Association-list lemmas for the storage model -/

theorem find_map_replace {α : Type} (l : List (String × α)) (k : String) (v : α) :
    List.find? (fun p => p.1 = k) (List.map (fun p => if p.1 = k then (k, v) else p) l) =
      if (List.find? (fun p => p.1 = k) l).isSome then some (k, v) else none := by
  induction l with
  | nil => simp
  | cons hd tl ih =>
      rw [List.map_cons]
      by_cases h : hd.1 = k
      · rw [if_pos h, List.find?_cons_of_pos _ (by simp), List.find?_cons_of_pos _ (by simp [h])]
        rfl
      · rw [if_neg h, List.find?_cons_of_neg _ (by simp [h]),
          List.find?_cons_of_neg _ (by simp [h]), ih]

theorem find_map_replace_ne {α : Type} (l : List (String × α)) (k k2 : String) (v : α)
    (h : k2 ≠ k) :
    List.find? (fun p => p.1 = k2) (List.map (fun p => if p.1 = k then (k, v) else p) l) =
      List.find? (fun p => p.1 = k2) l := by
  induction l with
  | nil => simp
  | cons hd tl ih =>
      rw [List.map_cons]
      by_cases hk : hd.1 = k
      · have hne : ¬hd.1 = k2 := by rw [hk]; exact fun hkk => h hkk.symm
        rw [if_pos hk, List.find?_cons_of_neg _ (by simp [Ne.symm h]),
          List.find?_cons_of_neg _ (by simp [hne]), ih]
      · rw [if_neg hk]
        by_cases h2 : hd.1 = k2
        · rw [List.find?_cons_of_pos _ (by simp [h2]), List.find?_cons_of_pos _ (by simp [h2])]
        · rw [List.find?_cons_of_neg _ (by simp [h2]),
            List.find?_cons_of_neg _ (by simp [h2]), ih]

theorem find_filter_out {α : Type} (l : List (String × α)) (k : String) :
    List.find? (fun p => p.1 = k) (List.filter (fun p => ¬p.1 = k) l) = none := by
  induction l with
  | nil => simp
  | cons hd tl ih =>
      rw [List.filter_cons]
      by_cases h : hd.1 = k
      · rw [if_neg (by simp [h]), ih]
      · rw [if_pos (by simp [h]), List.find?_cons_of_neg _ (by simp [h]), ih]

theorem find_filter_ne {α : Type} (l : List (String × α)) (k k2 : String) (h : k2 ≠ k) :
    List.find? (fun p => p.1 = k2) (List.filter (fun p => ¬p.1 = k) l) =
      List.find? (fun p => p.1 = k2) l := by
  induction l with
  | nil => simp
  | cons hd tl ih =>
      rw [List.filter_cons]
      by_cases hk : hd.1 = k
      · have hne : ¬hd.1 = k2 := by rw [hk]; exact fun hkk => h hkk.symm
        rw [if_neg (by simp [hk]), ih, List.find?_cons_of_neg _ (by simp [hne])]
      · rw [if_pos (by simp [hk])]
        by_cases h2 : hd.1 = k2
        · rw [List.find?_cons_of_pos _ (by simp [h2]), List.find?_cons_of_pos _ (by simp [h2])]
        · rw [List.find?_cons_of_neg _ (by simp [h2]),
            List.find?_cons_of_neg _ (by simp [h2]), ih]

theorem assoc_get_set_self {α : Type} (l : List (String × α)) (k : String) (v : α) :
    (List.find? (fun p => p.1 = k)
        (if (List.find? (fun p => p.1 = k) l).isSome then
          List.map (fun p => if p.1 = k then (k, v) else p) l
        else l ++ [(k, v)])).map (fun p => p.2) = some v := by
  split_ifs with h
  · rw [find_map_replace, if_pos h]
    rfl
  · rw [List.find?_append]
    rcases hf : List.find? (fun p => p.1 = k) l with _ | p
    · rw [hf, List.find?_cons_of_pos _ (by simp)]
      rfl
    · rw [hf] at h
      simp at h

theorem assoc_get_set_ne {α : Type} (l : List (String × α)) (k k2 : String) (v : α)
    (h : k2 ≠ k) :
    (List.find? (fun p => p.1 = k2)
        (if (List.find? (fun p => p.1 = k) l).isSome then
          List.map (fun p => if p.1 = k then (k, v) else p) l
        else l ++ [(k, v)])).map (fun p => p.2) =
      (List.find? (fun p => p.1 = k2) l).map (fun p => p.2) := by
  split_ifs with hs
  · rw [find_map_replace_ne _ _ _ _ h]
  · rw [List.find?_append, List.find?_cons_of_neg _ (by simp [Ne.symm h]), List.find?_nil,
      Option.or_none]

theorem storeGet_set_self (st : Store) (k : String) (v : StoreValue) :
    storeGet (storeSet st k v) k = some v :=
  assoc_get_set_self st k v

theorem storeGet_set_ne (st : Store) (k k2 : String) (v : StoreValue) (h : k2 ≠ k) :
    storeGet (storeSet st k v) k2 = storeGet st k2 :=
  assoc_get_set_ne st k k2 v h

theorem storeGet_remove_self (st : Store) (k : String) :
    storeGet (storeRemove st k) k = none := by
  unfold storeGet storeRemove
  rw [find_filter_out]
  rfl

theorem storeGet_remove_ne (st : Store) (k k2 : String) (h : k2 ≠ k) :
    storeGet (storeRemove st k) k2 = storeGet st k2 := by
  unfold storeGet storeRemove
  rw [find_filter_ne _ _ _ h]

theorem dbLookup_insert_self (db : UsersDatabase) (k : String) (u : StoredUser) :
    dbLookup (dbInsert db k u) k = some u :=
  assoc_get_set_self db k u

theorem loadUsersDatabase_save (b : Browser) (db : UsersDatabase) :
    loadUsersDatabase (saveUsersDatabase b db) = db := by
  unfold loadUsersDatabase saveUsersDatabase
  dsimp only
  rw [storeGet_set_self]

/-! ## Hex rendering lemmas -/

theorem hexDigitChar_mem (n : ℕ) (h : n < 16) :
    hexDigitChar n ∈ ("0123456789abcdef").data := by
  interval_cases n <;> decide

theorem toString16_mem (n : ℕ) : ∀ c ∈ toString16 n, c ∈ ("0123456789abcdef").data := by
  induction n using Nat.strong_induction_on with
  | _ n ih =>
      by_cases h : n < 16
      · rw [toString16, dif_pos h]
        intro c hc
        rw [List.mem_singleton] at hc
        subst hc
        exact hexDigitChar_mem n h
      · rw [toString16, dif_neg h]
        intro c hc
        rw [List.mem_append] at hc
        rcases hc with hc | hc
        · exact ih (n / 16) (Nat.div_lt_self (by omega) (by omega)) c hc
        · rw [List.mem_singleton] at hc
          subst hc
          exact hexDigitChar_mem _ (Nat.mod_lt n (by omega))

theorem byteToHex_mem (b : ℕ) : ∀ c ∈ (byteToHex b).data, c ∈ ("0123456789abcdef").data := by
  unfold byteToHex
  intro c hc
  rw [List.mem_append] at hc
  rcases hc with hc | hc
  · rw [List.eq_of_mem_replicate hc]
    decide
  · exact toString16_mem b c hc

theorem bytesToHex_mem (bs : List ℕ) :
    ∀ c ∈ (bytesToHex bs).data, c ∈ ("0123456789abcdef").data := by
  induction bs with
  | nil => intro c hc; simp [bytesToHex] at hc
  | cons b rest ih =>
      intro c hc
      rw [bytesToHex, String.data_append, List.mem_append] at hc
      rcases hc with hc | hc
      · exact byteToHex_mem b c hc
      · exact ih c hc

/-! ## signIn characterization lemmas -/

theorem signIn_success_iff (digest : List ℕ → List ℕ) (hashOk : Bool)
    (createdAt email password : String) (rememberMe : Bool) (b : Browser) :
    (signIn digest hashOk createdAt email password rememberMe b).1.success = true ↔
      (¬email = "" ∧ ¬password = "" ∧ hashOk = true ∧
        ∃ u, dbLookup (loadUsersDatabase b) (email.toLower.trim) = some u ∧
          bytesToHex (digest (utf8Bytes password)) = u.passwordHash) := by
  unfold signIn
  dsimp only
  by_cases h0 : email = "" ∨ password = ""
  · rw [if_pos h0]
    rcases h0 with h0 | h0 <;> simp [h0]
  · push_neg at h0
    rw [if_neg (by tauto)]
    cases hu : dbLookup (loadUsersDatabase b) (email.toLower.trim) with
    | none => simp
    | some u =>
        dsimp only
        by_cases hh : hashOk = true
        · rw [if_neg (by simp [hh])]
          by_cases hmatch : bytesToHex (digest (utf8Bytes password)) = u.passwordHash
          · rw [if_neg (show ¬hashPassword digest password ≠ u.passwordHash by
              simp [hashPassword, hmatch])]
            split_ifs <;> simp [h0.1, h0.2, hh, hmatch]
          · rw [if_pos (show hashPassword digest password ≠ u.passwordHash by
              simp [hashPassword, hmatch])]
            simp [hmatch]
        · rw [if_pos (by simp [hh])]
          simp [hh]

theorem signIn_failure_state (digest : List ℕ → List ℕ) (hashOk : Bool)
    (createdAt email password : String) (rememberMe : Bool) (b : Browser) :
    (signIn digest hashOk createdAt email password rememberMe b).1.success = false →
      (signIn digest hashOk createdAt email password rememberMe b).1.error.isSome = true ∧
        (signIn digest hashOk createdAt email password rememberMe b).2 = b := by
  unfold signIn
  dsimp only
  by_cases h0 : email = "" ∨ password = ""
  · rw [if_pos h0]
    intro _; exact ⟨rfl, rfl⟩
  · rw [if_neg h0]
    cases hu : dbLookup (loadUsersDatabase b) (email.toLower.trim) with
    | none => intro _; exact ⟨rfl, rfl⟩
    | some u =>
        dsimp only
        by_cases h1 : hashOk = true
        · rw [if_neg (by simp [h1])]
          by_cases h2 : hashPassword digest password ≠ u.passwordHash
          · rw [if_pos h2]
            intro _; exact ⟨rfl, rfl⟩
          · rw [if_neg h2]
            split_ifs <;> intro hfalse <;> simp at hfalse
        · rw [if_pos (by simp [h1])]
          intro _; exact ⟨rfl, rfl⟩

/-! ## Claim C9: generateMockPrediction output shape -/

/-- Claim C9 evaluation at the failing input: at creditScore 700,
annualIncome 60000, monthlyDebt 1500 no initial feature fires
(creditScore in the gap 650 to 749, debt-to-income 0.3 in the gap 0.2
to 0.35, income in the gap 50000 to 90000), the padding loop adds the
two neutral features and then breaks, so top_features has 2 entries,
not the 3 promised by the padding comment. -/
theorem generateMockPrediction_padding_gap :
    (generateMockPrediction 700 60000 1500).top_features.length = 2 ∧
    ¬((generateMockPrediction 700 60000 1500).top_features.length = 3) := by
  with_unfolding_all decide

/-! ## Claim C10: signOut removes only the session -/

/-- Claim C10: signOut empties exactly the creditsmart_session entry of
localStorage and sessionStorage; every other key, in particular the
creditsmart_users database, is untouched, and a signIn that succeeded
before signOut still succeeds afterwards with the same credentials. -/
theorem signOut_removes_only_session (b : Browser) :
    storeGet (signOut b).localStorage SESSION_STORAGE_KEY = none ∧
    storeGet (signOut b).sessionStorage SESSION_STORAGE_KEY = none ∧
    (∀ k, k ≠ SESSION_STORAGE_KEY →
      storeGet (signOut b).localStorage k = storeGet b.localStorage k ∧
      storeGet (signOut b).sessionStorage k = storeGet b.sessionStorage k) ∧
    loadUsersDatabase (signOut b) = loadUsersDatabase b ∧
    (∀ (digest : List ℕ → List ℕ) (hashOk : Bool) (t1 t2 email password : String)
        (rememberMe : Bool),
      (signIn digest hashOk t1 email password rememberMe b).1.success = true →
      (signIn digest hashOk t2 email password rememberMe (signOut b)).1.success = true) := by
  have husers : loadUsersDatabase (signOut b) = loadUsersDatabase b := by
    unfold loadUsersDatabase
    rw [show (signOut b).localStorage = storeRemove b.localStorage SESSION_STORAGE_KEY from rfl,
      storeGet_remove_ne _ _ _ (by decide)]
  refine ⟨storeGet_remove_self _ _, storeGet_remove_self _ _,
    fun k hk => ⟨storeGet_remove_ne _ _ _ hk, storeGet_remove_ne _ _ _ hk⟩, husers, ?_⟩
  intro digest hashOk t1 t2 email password rememberMe hsucc
  rw [signIn_success_iff] at hsucc
  rw [signIn_success_iff, husers]
  exact hsucc

/-- Concrete instance of claim C10: a registered account still signs in
after signOut. -/
theorem signOut_removes_only_session_witness :
    (signIn (fun bs => bs) true "t2" "alice@example.com" "secret123" false
        (signOut
          ⟨[(USERS_STORAGE_KEY, StoreValue.users
              [("alice@example.com",
                ⟨"alice@example.com", "Alice", bytesToHex (utf8Bytes "secret123"), "d",
                  some "USD"⟩)])],
            []⟩)).1.success = true :=
  (signOut_removes_only_session _).2.2.2.2 (fun bs => bs) true "t1" "t2" "alice@example.com"
    "secret123" false (by with_unfolding_all decide)

/-! ## Claim C2: signUp stores only the password hash -/

/-- Claim C2: after a successful signUp, the stored user record keyed
by the normalized email holds in passwordHash the lowercase hex
rendering of the SHA-256 digest of the UTF-8 encoding of the password
(the digest itself is the external Web Crypto primitive, a parameter
here); the session entries of both stores are untouched, and the whole
resulting state depends on the password only through its digest (and
its length, which validation reads), so the plain-text password is
stored nowhere. -/
theorem signUp_stores_hash_only (digest : List ℕ → List ℕ)
    (createdAt name email password : String) (b : Browser)
    (hs : (signUp digest true true createdAt name email password b).1.success = true) :
    ∃ u : StoredUser,
      dbLookup (loadUsersDatabase (signUp digest true true createdAt name email password b).2)
          (email.toLower.trim) = some u ∧
      u.passwordHash = bytesToHex (digest (utf8Bytes password)) ∧
      (∀ c ∈ u.passwordHash.data, c ∈ ("0123456789abcdef").data) ∧
      storeGet (signUp digest true true createdAt name email password b).2.localStorage
          SESSION_STORAGE_KEY = storeGet b.localStorage SESSION_STORAGE_KEY ∧
      (signUp digest true true createdAt name email password b).2.sessionStorage =
        b.sessionStorage ∧
      (∀ password2, password2.length = password.length →
        digest (utf8Bytes password2) = digest (utf8Bytes password) →
        signUp digest true true createdAt name email password2 b =
          signUp digest true true createdAt name email password b) := by
  unfold signUp at hs ⊢
  dsimp only at hs ⊢
  split_ifs at hs with h1 h2 h3 h4
  all_goals try cases hs
  rw [if_neg h1, if_neg (show ¬¬email.contains '@' = true by simp [h2]), if_neg h3, if_neg h4,
    if_neg (show ¬¬true = true by simp), if_neg (show ¬¬true = true by simp)]
  refine ⟨{ email := email.toLower.trim, name := name.trim
            passwordHash := hashPassword digest password, createdAt := createdAt
            currency := some "USD" }, ?_, rfl, ?_, ?_, rfl, ?_⟩
  · rw [loadUsersDatabase_save]
    exact dbLookup_insert_self _ _ _
  · exact bytesToHex_mem _
  · exact storeGet_set_ne _ _ _ _ (by decide)
  · intro password2 hlen hdig
    simp only [hashPassword, hlen, hdig]
    split_ifs <;> simp_all

/-- Concrete instance of claim C2: registering a fresh account in an
empty browser stores the hex digest. -/
theorem signUp_stores_hash_only_witness :
    ∃ u : StoredUser,
      dbLookup
          (loadUsersDatabase
            (signUp (fun bs => bs) true true "d" "Alice" "alice@example.com" "secret123"
              ⟨[], []⟩).2)
          ("alice@example.com".toLower.trim) = some u ∧
      u.passwordHash = bytesToHex ((fun bs => bs) (utf8Bytes "secret123")) ∧
      (∀ c ∈ u.passwordHash.data, c ∈ ("0123456789abcdef").data) ∧
      storeGet
          (signUp (fun bs => bs) true true "d" "Alice" "alice@example.com" "secret123"
            ⟨[], []⟩).2.localStorage SESSION_STORAGE_KEY =
        storeGet (⟨[], []⟩ : Browser).localStorage SESSION_STORAGE_KEY ∧
      (signUp (fun bs => bs) true true "d" "Alice" "alice@example.com" "secret123"
          ⟨[], []⟩).2.sessionStorage = (⟨[], []⟩ : Browser).sessionStorage ∧
      (∀ password2, password2.length = ("secret123").length →
        (fun bs => bs) (utf8Bytes password2) = (fun bs => bs) (utf8Bytes "secret123") →
        signUp (fun bs => bs) true true "d" "Alice" "alice@example.com" password2 ⟨[], []⟩ =
          signUp (fun bs => bs) true true "d" "Alice" "alice@example.com" "secret123"
            ⟨[], []⟩) :=
  signUp_stores_hash_only (fun bs => bs) "d" "Alice" "alice@example.com" "secret123" ⟨[], []⟩
    (by with_unfolding_all decide)

/-! ## Claim C6: signUp failure conditions and atomicity -/

/-- Claim C6: signUp fails exactly when the trimmed name is empty, the
email has no at-sign, the password is shorter than 6 characters, the
normalized email is already registered, or hashing or persisting throws
(the hashOk and saveOk parameters); every failure leaves the persisted
users database unchanged. -/
theorem signUp_failure_characterization (digest : List ℕ → List ℕ) (hashOk saveOk : Bool)
    (createdAt name email password : String) (b : Browser) :
    ((signUp digest hashOk saveOk createdAt name email password b).1.success = false ↔
      (name.trim.length = 0 ∨ email.contains '@' = false ∨ password.length < 6 ∨
        (dbLookup (loadUsersDatabase b) (email.toLower.trim)).isSome = true ∨
        hashOk = false ∨ saveOk = false)) ∧
    ((signUp digest hashOk saveOk createdAt name email password b).1.success = false →
      storeGet (signUp digest hashOk saveOk createdAt name email password b).2.localStorage
          USERS_STORAGE_KEY = storeGet b.localStorage USERS_STORAGE_KEY) := by
  unfold signUp
  dsimp only
  split_ifs <;> constructor <;> simp_all

/-- Concrete instance of claim C6: a five-character password is
rejected and the empty users store is untouched. -/
theorem signUp_failure_characterization_witness :
    (signUp (fun bs => bs) true true "d" "Alice" "alice@example.com" "abcde"
        ⟨[], []⟩).1.success = false ∧
    storeGet (signUp (fun bs => bs) true true "d" "Alice" "alice@example.com" "abcde"
        ⟨[], []⟩).2.localStorage USERS_STORAGE_KEY =
      storeGet (⟨[], []⟩ : Browser).localStorage USERS_STORAGE_KEY :=
  have h := signUp_failure_characterization (fun bs => bs) true true "d" "Alice"
    "alice@example.com" "abcde" ⟨[], []⟩
  have hfail := h.1.mpr (by with_unfolding_all decide)
  ⟨hfail, h.2 hfail⟩

/-! ## Claim C3: signIn success conditions -/

/-- Claim C3, amended: signIn succeeds exactly when the email and
password are nonempty (the JavaScript falsy guard returns early on
empty strings even when the stored database holds a matching entry),
hashing succeeds, the lowercased trimmed email is a key of the stored
users database and the hex digest of the password equals that user's
stored passwordHash; in every other case it returns success = false
with an error message and leaves both storage areas unchanged. -/
theorem signIn_success_characterization (digest : List ℕ → List ℕ) (hashOk : Bool)
    (createdAt email password : String) (rememberMe : Bool) (b : Browser) :
    ((signIn digest hashOk createdAt email password rememberMe b).1.success = true ↔
      (¬email = "" ∧ ¬password = "" ∧ hashOk = true ∧
        ∃ u, dbLookup (loadUsersDatabase b) (email.toLower.trim) = some u ∧
          bytesToHex (digest (utf8Bytes password)) = u.passwordHash)) ∧
    ((signIn digest hashOk createdAt email password rememberMe b).1.success = false →
      (signIn digest hashOk createdAt email password rememberMe b).1.error.isSome = true ∧
        (signIn digest hashOk createdAt email password rememberMe b).2 = b) :=
  ⟨signIn_success_iff digest hashOk createdAt email password rememberMe b,
    signIn_failure_state digest hashOk createdAt email password rememberMe b⟩

/-- Concrete instance of claim C3: matching credentials sign in. -/
theorem signIn_success_characterization_witness :
    (signIn (fun bs => bs) true "t" "alice@example.com" "secret123" true
        ⟨[(USERS_STORAGE_KEY, StoreValue.users
            [("alice@example.com",
              ⟨"alice@example.com", "Alice", bytesToHex (utf8Bytes "secret123"), "d",
                some "USD"⟩)])],
          []⟩).1.success = true :=
  (signIn_success_characterization (fun bs => bs) true "t" "alice@example.com" "secret123" true
      _).1.mpr
    (by refine ⟨by decide, by decide, rfl, ?_⟩
        exact ⟨⟨"alice@example.com", "Alice", bytesToHex (utf8Bytes "secret123"), "d",
          some "USD"⟩, by with_unfolding_all decide, by with_unfolding_all decide⟩)

/-- Counterexample to claim C3 as stated: with an empty email string
the stored database can hold a matching entry under the normalized key
(the empty string) whose passwordHash equals the digest of the
password, yet signIn returns success = false because of the falsy
early return on the empty email. -/
theorem signIn_success_characterization_counterexample :
    (signIn (fun bs => ([] : List ℕ)) true "t" "" "secret" false
        ⟨[(USERS_STORAGE_KEY, StoreValue.users
            [("", ⟨"", "Ghost", "", "d", some "USD"⟩)])],
          []⟩).1.success = false ∧
    dbLookup
        (loadUsersDatabase
          ⟨[(USERS_STORAGE_KEY, StoreValue.users
              [("", ⟨"", "Ghost", "", "d", some "USD"⟩)])],
            []⟩)
        ("".toLower.trim) = some ⟨"", "Ghost", "", "d", some "USD"⟩ ∧
    bytesToHex ((fun bs => ([] : List ℕ)) (utf8Bytes "secret")) =
      (⟨"", "Ghost", "", "d", some "USD"⟩ : StoredUser).passwordHash := by
  with_unfolding_all decide

